import Mathlib

/-!
Shallow embedding of `qiita_db/artifact.py` (class `Artifact`): the artifact
store, the creation and deletion engines, the lineage graph accessors and the
EBI/VAMPS submission state machine.

The relational store (`qiita.artifact`, `qiita.parent_artifact`,
`qiita.study_artifact`, `qiita.artifact_filepath`, `qiita.ebi_run_accession`,
`qiita.prep_template`, `qiita.analysis_sample`) is modelled as a `Store`
structure of association lists.  Every operation of the source runs inside a
`with TRN:` transaction that rolls back on an exception, so each operation is
embedded as `Store -> Except QiitaDBError (α × Store)`: an `.error` result
leaves the caller with the unchanged pre-state, which is exactly the rollback
semantics.  Wall-clock timestamps (`datetime.now()`) are outside the embedding
and the `generated_timestamp` column is omitted; no claim mentions it.
Machine identifiers are surrogate keys and are modelled as `Nat`.
-/

/-- The exception taxonomy of `qiita_db.exceptions` as used by `artifact.py`,
plus the Python builtin `TypeError` (reachable through `str.join` applied to a
set of integers) and a lookup error for failed id resolution of
`convert_to_id` / missing rows. -/
inductive QiitaDBError where
  | artifactCreationError (msg : String)
  | artifactDeletionError (artifactId : Nat) (reason : String)
  | operationNotPermittedError (msg : String)
  | lookupError (msg : String)
  | typeError (msg : String)
deriving DecidableEq, Repr

/-- A Python value as it appears in the argument of `str.join`: either an
`int` (as in `{p.study.id for p in parents}`) or a `str`. -/
inductive PyVal where
  | pyInt (n : Nat)
  | pyStr (s : String)
deriving DecidableEq, Repr

/-- CPython `sep.join(xs)`: succeeds with the separator-interleaved
concatenation when every element is a `str`; raises `TypeError` naming the
index of the first non-`str` element otherwise. -/
def strJoin (sep : String) (xs : List PyVal) : Except QiitaDBError String :=
  let rec go : Nat → List PyVal → Except QiitaDBError (List String)
    | _, [] => .ok []
    | i, (PyVal.pyStr s) :: rest =>
        (go (i + 1) rest).map (fun tl => s :: tl)
    | i, (PyVal.pyInt _) :: _ =>
        .error (.typeError
          ("sequence item " ++ toString i ++ ": expected str instance, int found"))
  (go 0 xs).map (fun parts => String.intercalate sep parts)

/-- Python truthiness of an optional list argument (default `None`):
`None` and `[]` are falsy, a non-empty list is truthy. -/
def pyTruthyList {α : Type} (x : Option (List α)) : Bool :=
  match x with
  | none => false
  | some l => !l.isEmpty

/-- Python truthiness of an optional object argument (default `None`):
`None` is falsy, any object is truthy. -/
def pyTruthyObj {α : Type} (x : Option α) : Bool :=
  x.isSome

/-- The `(command, parameter set)` pair of `qiita_db.software.Parameters`:
`id` is the parameter-set id, `commandId` the id of `Parameters.command`. -/
structure Parameters where
  id : Nat
  commandId : Nat
deriving DecidableEq, Repr

/-- One row of the `qiita.artifact` table (minus `generated_timestamp`). -/
structure ArtifactRecord where
  commandId : Option Nat
  commandParametersId : Option Nat
  dataTypeId : Nat
  visibilityId : Nat
  artifactTypeId : Nat
  canBeSubmittedToEbi : Bool
  canBeSubmittedToVamps : Bool
  submittedToVamps : Bool
deriving DecidableEq, Repr

/-- Modelled from the spec: the `UploadTemplate` (prep template) collaborator
of section 6, which `artifact.py` imports from `qiita_db.metadata_template`
(not under `src/`).  It exposes `dataType()`, `studyId` and a settable
back-reference to its produced artifact. -/
structure PrepTemplateRec where
  dataType : String
  studyId : Nat
  artifactId : Option Nat
deriving DecidableEq, Repr

/-- Modelled from the spec: the Vocabulary Resolver collaborator of section 6
(`qiita_db.util.convert_to_id`, not under `src/`): three controlled
vocabularies mapping internal ids to category strings. -/
structure Vocab where
  visibility : List (Nat × String)
  artifactType : List (Nat × String)
  dataType : List (Nat × String)
deriving Repr

/-- Modelled from the spec: `resolve(category, value) -> internalId`, failing
if `value` is not a recognized member of the vocabulary. -/
def convert_to_id (table : List (Nat × String)) (value : String) :
    Except QiitaDBError Nat :=
  match table.find? (fun row => row.2 = value) with
  | some row => .ok row.1
  | none => .error (.lookupError ("value " ++ value ++ " not found"))

/-- Reverse direction of the vocabulary: the string joined in via
`JOIN qiita.visibility USING (visibility_id)` etc. -/
def vocab_value (table : List (Nat × String)) (vid : Nat) :
    Except QiitaDBError String :=
  match table.find? (fun row => row.1 = vid) with
  | some row => .ok row.2
  | none => .error (.lookupError ("id " ++ toString vid ++ " not found"))

/-- The relational state touched by `artifact.py`.  Edge rows of
`qiita.parent_artifact` are `(artifact_id, parent_id)` pairs, i.e. the first
component is the child.  `uploadFolder` is the pending-upload area of
`move_filepaths_to_upload_folder` (modelled from the spec, see below). -/
structure Store where
  artifacts : List (Nat × ArtifactRecord)
  parentArtifact : List (Nat × Nat)
  studyArtifact : List (Nat × Nat)
  artifactFilepath : List (Nat × Nat)
  ebiRunAccession : List (String × Nat × String)
  prepTemplates : List (Nat × PrepTemplateRec)
  analysisSample : List Nat
  uploadFolder : List (Nat × Nat)
  nextArtifactId : Nat
  nextFilepathId : Nat
deriving Repr

/-- The empty store: no artifacts, no edges, fresh counters starting at 1
(surrogate keys of the store are positive, the exact start value is
irrelevant to every claim). -/
def Store.empty : Store :=
  ⟨[], [], [], [], [], [], [], [], 1, 1⟩

/-- Row lookup in `qiita.artifact` by primary key. -/
def Store.lookupArtifact (s : Store) (aid : Nat) : Option ArtifactRecord :=
  (s.artifacts.find? (fun row => row.1 = aid)).map (fun row => row.2)

namespace Artifact

/-- `QiitaObject.__init__` existence check: constructing `Artifact(id)` fails
when no row with that id exists.  Modelled from the spec: `qiita_db.base` is
not under `src/`; the source comments that `cls(artifact_id)` fails if the
artifact does not exist. -/
def checkExists (s : Store) (aid : Nat) : Except QiitaDBError ArtifactRecord :=
  match s.lookupArtifact aid with
  | some r => .ok r
  | none => .error (.lookupError ("artifact " ++ toString aid ++ " does not exist"))

/-- Property `Artifact.visibility`: the visibility string of the artifact,
via the join with the `qiita.visibility` vocabulary table. -/
def visibility (v : Vocab) (s : Store) (aid : Nat) : Except QiitaDBError String := do
  let r ← checkExists s aid
  vocab_value v.visibility r.visibilityId

/-- Property `Artifact.data_type`: the data type string of the artifact, via
the join with the `qiita.data_type` vocabulary table. -/
def data_type (v : Vocab) (s : Store) (aid : Nat) : Except QiitaDBError String := do
  let r ← checkExists s aid
  vocab_value v.dataType r.dataTypeId

/-- Property `Artifact.study`: the study id from `qiita.study_artifact`. -/
def study (s : Store) (aid : Nat) : Except QiitaDBError Nat :=
  match s.studyArtifact.find? (fun row => row.2 = aid) with
  | some row => .ok row.1
  | none => .error (.lookupError ("artifact " ++ toString aid ++ " has no study"))

/-- Property `Artifact.parents`: the one-hop parent ids, in edge-table
order (`SELECT parent_id FROM qiita.parent_artifact WHERE artifact_id = %s`). -/
def parents (s : Store) (aid : Nat) : List Nat :=
  (s.parentArtifact.filter (fun row => row.1 = aid)).map (fun row => row.2)

/-- Property `Artifact.children`: the one-hop child ids, in edge-table
order (`SELECT artifact_id FROM qiita.parent_artifact WHERE parent_id = %s`). -/
def children (s : Store) (aid : Nat) : List Nat :=
  (s.parentArtifact.filter (fun row => row.2 = aid)).map (fun row => row.1)

/-- Property `Artifact.filepaths` (`retrieve_filepaths` on
`artifact_filepath`; the helper lives in `qiita_db.util`, not under `src/`,
and is modelled from the spec as returning the filepath ids linked to the
artifact). -/
def filepaths (s : Store) (aid : Nat) : List Nat :=
  (s.artifactFilepath.filter (fun row => row.1 = aid)).map (fun row => row.2)

/-- Property `Artifact.processing_parameters`: `None` when the stored
`command_id` is NULL, otherwise `Parameters(command_parameters_id,
Command(command_id))`.  The source reads both columns of the single artifact
row; a NULL `command_parameters_id` next to a non-NULL `command_id` never
occurs (both are written together), and the embedding returns the stored
pair. -/
def processing_parameters (s : Store) (aid : Nat) :
    Except QiitaDBError (Option Parameters) := do
  let r ← checkExists s aid
  match r.commandId, r.commandParametersId with
  | none, _ => pure none
  | some _, none => .error (.lookupError "command without parameters")
  | some cid, some pid => pure (some ⟨pid, cid⟩)

/-- Property `Artifact.can_be_submitted_to_ebi`. -/
def can_be_submitted_to_ebi (s : Store) (aid : Nat) : Except QiitaDBError Bool :=
  (checkExists s aid).map (fun r => r.canBeSubmittedToEbi)

/-- Property `Artifact.can_be_submitted_to_vamps`. -/
def can_be_submitted_to_vamps (s : Store) (aid : Nat) : Except QiitaDBError Bool :=
  (checkExists s aid).map (fun r => r.canBeSubmittedToVamps)

/-- Getter `Artifact.ebi_run_accessions`: requires the EBI capability, then
returns the `(sample_id, accession)` rows of this artifact. -/
def ebi_run_accessions (s : Store) (aid : Nat) :
    Except QiitaDBError (List (String × String)) := do
  let canEbi ← can_be_submitted_to_ebi s aid
  if !canEbi then
    .error (.operationNotPermittedError
      ("Artifact " ++ toString aid ++ " cannot be submitted to EBI"))
  else
    pure ((s.ebiRunAccession.filter (fun row => row.2.1 = aid)).map
      (fun row => (row.1, row.2.2)))

/-- Setter `Artifact.ebi_run_accessions`: requires the EBI capability,
refuses when any accession row already exists for this artifact, otherwise
inserts one row per `(sample, accession)` pair. -/
def set_ebi_run_accessions (s : Store) (aid : Nat)
    (values : List (String × String)) : Except QiitaDBError Store := do
  let canEbi ← can_be_submitted_to_ebi s aid
  if !canEbi then
    .error (.operationNotPermittedError
      ("Artifact " ++ toString aid ++ " cannot be submitted to EBI"))
  else if !(s.ebiRunAccession.filter (fun row => row.2.1 = aid)).isEmpty then
    .error (.operationNotPermittedError
      ("Artifact " ++ toString aid ++ " already submitted to EBI"))
  else
    pure { s with ebiRunAccession :=
      s.ebiRunAccession ++ values.map (fun p => (p.1, aid, p.2)) }

/-- Getter `Artifact.is_submitted_to_vamps`: requires the VAMPS capability,
then returns the stored flag. -/
def is_submitted_to_vamps (s : Store) (aid : Nat) : Except QiitaDBError Bool := do
  let canVamps ← can_be_submitted_to_vamps s aid
  if !canVamps then
    .error (.operationNotPermittedError
      ("Artifact " ++ toString aid ++ " cannot be submitted to VAMPS"))
  else
    (checkExists s aid).map (fun r => r.submittedToVamps)

/-- Setter `Artifact.is_submitted_to_vamps`: requires the VAMPS capability,
then updates the stored flag (no guard on the current value). -/
def set_is_submitted_to_vamps (s : Store) (aid : Nat) (value : Bool) :
    Except QiitaDBError Store := do
  let canVamps ← can_be_submitted_to_vamps s aid
  if !canVamps then
    .error (.operationNotPermittedError
      ("Artifact " ++ toString aid ++ " cannot be submitted to VAMPS"))
  else
    pure { s with artifacts := s.artifacts.map (fun row =>
      if row.1 = aid then (row.1, { row.2 with submittedToVamps := value }) else row) }

/-- Modelled from the spec: `qiita.find_artifact_roots` (a store-side
recursive query, not under `src/`): the transitive closure upward through
parent edges until parentless nodes are reached, deduplicated for diamond
lineage.  `fuel` bounds the recursion; any fuel larger than the longest
ancestor chain computes the closure (parent ids are strictly smaller than
child ids in every reachable store, so `nextArtifactId + 1` suffices). -/
def find_artifact_roots (s : Store) : Nat → Nat → List Nat
  | 0, aid => [aid]
  | fuel + 1, aid =>
    let ps := parents s aid
    if ps.isEmpty then [aid]
    else ((ps.map (find_artifact_roots s fuel)).flatten).dedup

/-- Property `Artifact.prep_templates`: the prep templates whose
`artifact_id` points at one of the roots of this artifact. -/
def prep_templates (s : Store) (aid : Nat) : List Nat :=
  let roots := find_artifact_roots s (s.nextArtifactId + 1) aid
  (s.prepTemplates.filter (fun row =>
    match row.2.artifactId with
    | some a => roots.contains a
    | none => false)).map (fun row => row.1)

/-- Classmethod `Artifact.create`.  Arguments mirror the Python signature:
`prep_template` and `parentList` are optional (Python default `None`) and
the source tests them by truthiness, so `some []` behaves like `none` for
the parents.  Returns the new artifact id and the post-transaction store;
any raised exception aborts the transaction, so an `.error` result leaves
the store unchanged. -/
def create (v : Vocab) (filepathArgs : List (String × Nat))
    (artifact_type : String) (prep_template : Option Nat)
    (parentList : Option (List Nat)) (procParams : Option Parameters)
    (can_ebi : Bool) (can_vamps : Bool) (s : Store) :
    Except QiitaDBError (Nat × Store) :=
  -- We need at least one file
  if filepathArgs.isEmpty then
    .error (.artifactCreationError "at least one filepath is required.")
  -- Parents or prep template must be provided, but not both
  else if pyTruthyList parentList && pyTruthyObj prep_template then
    .error (.artifactCreationError
      "parents or prep_template should be provided but not both")
  else if !(pyTruthyList parentList || pyTruthyObj prep_template) then
    .error (.artifactCreationError
      "at least parents or prep_template must be provided")
  else if pyTruthyList parentList && !pyTruthyObj procParams then
    -- Note: the two adjacent Python string literals concatenate without a
    -- space, yielding ...should also beprovided.
    .error (.artifactCreationError
      "if parents is provided, processing_parameters should also beprovided.")
  else if pyTruthyObj prep_template && pyTruthyObj procParams then
    .error (.artifactCreationError
      "if prep_template is provided, processing_parameters should not be provided.")
  else do
    let visibility_id ← convert_to_id v.visibility "sandbox"
    let artifact_type_id ← convert_to_id v.artifactType artifact_type
    if pyTruthyList parentList then
      let ps := parentList.getD []
      -- studies = {p.study.id for p in parents}; Python set modelled as dedup
      let studyIdList ← ps.mapM (fun p => study s p)
      let studies := studyIdList.dedup
      if studies.length > 1 then
        -- The source interpolates the join of a set of INTEGER study ids:
        -- in Python, str.join over ints raises TypeError before the
        -- QiitaDBArtifactCreationError is constructed.
        match strJoin ", " (studies.map PyVal.pyInt) with
        | .error e => .error e
        | .ok joined =>
          .error (.artifactCreationError
            ("parents from multiple studies provided: " ++ joined))
      else
      let study_id := studies.headD 0
      let dtypeList ← ps.mapM (fun p => data_type v s p)
      let dtypes := dtypeList.dedup
      if dtypes.length > 1 then
        match strJoin ", " (dtypes.map PyVal.pyStr) with
        | .error e => .error e
        | .ok joined =>
          .error (.artifactCreationError
            ("parents have multiple data types: " ++ joined))
      else
      match procParams with
      | none =>
        -- unreachable: the elif chain above already raised in this case;
        -- the dead branch repeats the same exception
        .error (.artifactCreationError
          "if parents is provided, processing_parameters should also beprovided.")
      | some pp => do
        let dtype_id ← convert_to_id v.dataType (dtypes.headD "")
        let a_id := s.nextArtifactId
        let row : ArtifactRecord :=
          ⟨some pp.commandId, some pp.id, dtype_id, visibility_id,
           artifact_type_id, can_ebi, can_vamps, false⟩
        let s1 := { s with
          artifacts := s.artifacts ++ [(a_id, row)],
          parentArtifact := s.parentArtifact ++ ps.map (fun p => (a_id, p)),
          nextArtifactId := a_id + 1 }
        finishCreate filepathArgs a_id study_id s1
    else do
      let pt_id := prep_template.getD 0
      let ptRec ←
        match s.prepTemplates.find? (fun row => row.1 = pt_id) with
        | some row => pure row.2
        | none => .error (.lookupError
            ("prep template " ++ toString pt_id ++ " does not exist"))
      let dtype_id ← convert_to_id v.dataType ptRec.dataType
      let a_id := s.nextArtifactId
      let row : ArtifactRecord :=
        ⟨none, none, dtype_id, visibility_id, artifact_type_id,
         can_ebi, can_vamps, false⟩
      -- prep_template.artifact = instance: set the back-reference
      let s1 := { s with
        artifacts := s.artifacts ++ [(a_id, row)],
        prepTemplates := s.prepTemplates.map (fun ptrow =>
          if ptrow.1 = pt_id then (ptrow.1, { ptrow.2 with artifactId := some a_id })
          else ptrow),
        nextArtifactId := a_id + 1 }
      finishCreate filepathArgs a_id ptRec.studyId s1
where
  /-- The tail shared by both creation branches: attach the artifact to its
  study and persist the filepaths (`insert_filepaths` lives in
  `qiita_db.util`, not under `src/`; modelled from the spec as assigning
  fresh filepath ids and linking each to the new artifact). -/
  finishCreate (fps : List (String × Nat)) (a_id study_id : Nat) (s1 : Store) :
      Except QiitaDBError (Nat × Store) :=
    let fp_ids := (List.range fps.length).map (fun i => s1.nextFilepathId + i)
    .ok (a_id, { s1 with
      studyArtifact := s1.studyArtifact ++ [(study_id, a_id)],
      artifactFilepath := s1.artifactFilepath ++ fp_ids.map (fun fp => (a_id, fp)),
      nextFilepathId := s1.nextFilepathId + fps.length })

/-- The EBI deletability check of `Artifact.delete`:
`instance.can_be_submitted_to_ebi and instance.ebi_run_accessions` — Python
`and` short-circuits, so the capability-gated getter only runs when the
capability holds, and the result is the truthiness of the accession dict. -/
def ebiDeleteCheck (s : Store) (artifact_id : Nat) (r : ArtifactRecord) :
    Except QiitaDBError Bool :=
  if r.canBeSubmittedToEbi then
    (ebi_run_accessions s artifact_id).map (fun accs => !accs.isEmpty)
  else pure false

/-- The VAMPS deletability check of `Artifact.delete`:
`instance.can_be_submitted_to_vamps and instance.is_submitted_to_vamps`,
with the same short-circuit shape as the EBI check. -/
def vampsDeleteCheck (s : Store) (artifact_id : Nat) (r : ArtifactRecord) :
    Except QiitaDBError Bool :=
  if r.canBeSubmittedToVamps then is_submitted_to_vamps s artifact_id
  else pure false

/-- Classmethod `Artifact.delete`: the five deletability checks in source
order, then the removal steps of the single transaction. -/
def delete (v : Vocab) (artifact_id : Nat) (s : Store) :
    Except QiitaDBError Store := do
  -- This will fail if the artifact with id=artifact_id does not exist
  let r ← checkExists s artifact_id
  -- Check if the artifact is public
  let vis ← visibility v s artifact_id
  if vis = "public" then
    .error (.artifactDeletionError artifact_id "it is public")
  else
  -- Check if this artifact has any children
  let cs := children s artifact_id
  if !cs.isEmpty then do
    let joined ← strJoin ", " (cs.map (fun c => PyVal.pyStr (toString c)))
    .error (.artifactDeletionError artifact_id ("it has children: " ++ joined))
  else
  -- Check if the artifact has been analyzed
  if s.analysisSample.contains artifact_id then
    .error (.artifactDeletionError artifact_id "it has been analyzed")
  else do
  -- Check if the artifact has been submitted to EBI
  let ebiSubmitted ← ebiDeleteCheck s artifact_id r
  if ebiSubmitted then
    .error (.artifactDeletionError artifact_id "it has been submitted to EBI")
  else do
  -- Check if the artifact has been submitted to VAMPS
  let vampsSubmitted ← vampsDeleteCheck s artifact_id r
  if vampsSubmitted then
    .error (.artifactDeletionError artifact_id "it has been submitted to VAMPS")
  else do
  -- We can now remove the artifact
  let fps := filepaths s artifact_id
  let study_id ← study s artifact_id
  let s1 := { s with artifactFilepath :=
    s.artifactFilepath.filter (fun row => row.1 ≠ artifact_id) }
  let s2 :=
    if (parents s artifact_id).isEmpty then
      -- move_filepaths_to_upload_folder (qiita_db.util, not under src/;
      -- modelled from the spec: relocate the files to the pending-upload
      -- area owned by the study) and null the template back-references
      let pts := prep_templates s artifact_id
      { s1 with
        uploadFolder := s1.uploadFolder ++ fps.map (fun fp => (study_id, fp)),
        prepTemplates := s1.prepTemplates.map (fun row =>
          if pts.contains row.1 then (row.1, { row.2 with artifactId := none })
          else row) }
    else
      { s1 with parentArtifact :=
        s1.parentArtifact.filter (fun row => row.1 ≠ artifact_id) }
  pure { s2 with
    studyArtifact := s2.studyArtifact.filter (fun row => row.2 ≠ artifact_id),
    artifacts := s2.artifacts.filter (fun row => row.1 ≠ artifact_id) }

end Artifact

/-- Discriminator: the computation raised `QiitaDBArtifactCreationError`. -/
def isCreationError {α : Type} : Except QiitaDBError α → Bool
  | .error (.artifactCreationError _) => true
  | _ => false

/-- Discriminator: the computation raised `QiitaDBOperationNotPermittedError`. -/
def isNotPermittedError {α : Type} : Except QiitaDBError α → Bool
  | .error (.operationNotPermittedError _) => true
  | _ => false

/-!
Concrete fixtures used by witnesses and counterexamples: a vocabulary with
the three visibility levels, two artifact types and two data types, and a few
small stores.
-/

/-- A concrete controlled vocabulary. -/
def vocabFix : Vocab :=
  ⟨[(1, "sandbox"), (2, "private"), (3, "public")],
   [(1, "FASTQ"), (2, "BIOM")],
   [(1, "16S"), (2, "18S")]⟩

/-- A root artifact record with the given data type id, visibility id and
capability flags. -/
def rootRec (dt vis : Nat) (ce cv sv : Bool) : ArtifactRecord :=
  ⟨none, none, dt, vis, 1, ce, cv, sv⟩

/-- Two root artifacts, ids 1 and 2, owned by studies 1 and 2. -/
def storeTwoStudies : Store :=
  ⟨[(1, rootRec 1 1 false false false), (2, rootRec 1 1 false false false)],
   [], [(1, 1), (2, 2)], [], [], [], [], [], 3, 1⟩

/-- Two root artifacts, ids 1 and 2, both owned by study 1, with data types
16S and 18S respectively. -/
def storeTwoDtypes : Store :=
  ⟨[(1, rootRec 1 1 false false false), (2, rootRec 2 1 false false false)],
   [], [(1, 1), (1, 2)], [], [], [], [], [], 3, 1⟩

/-- Two root artifacts, ids 1 and 2, both owned by study 1, both 16S. -/
def storeTwoRoots : Store :=
  ⟨[(1, rootRec 1 1 false false false), (2, rootRec 1 1 false false false)],
   [], [(1, 1), (1, 2)], [], [], [], [], [], 3, 1⟩

/-- One prep template (id 10, study 1, 16S, no artifact yet) and no
artifacts. -/
def storeOneTemplate : Store :=
  ⟨[], [], [], [], [], [(10, ⟨"16S", 1, none⟩)], [], [], 1, 1⟩

/-- Claim C9: every creation call whose filepaths argument is empty raises
ArtifactCreationError, regardless of all other arguments.  An error result
carries no store in this embedding (the transaction rolls back), so nothing
is persisted. -/
theorem create_empty_filepaths_error (v : Vocab) (atype : String)
    (pt : Option Nat) (ps : Option (List Nat)) (pp : Option Parameters)
    (ce cv : Bool) (s : Store) :
    Artifact.create v [] atype pt ps pp ce cv s =
      .error (.artifactCreationError "at least one filepath is required.") := rfl

/-- Claim C1 (counterexample to the study half): on parents spanning the two
studies 1 and 2, create raises the Python builtin TypeError while building
the error message, because the source joins a set of integer study ids with
a string separator; the documented ArtifactCreationError is never
constructed.  The data-type half behaves as claimed: parents spanning two
data types produce an ArtifactCreationError listing them. -/
theorem create_multi_study_raises_typeerror :
    (Artifact.create vocabFix [("fp", 1)] "BIOM" none (some [1, 2])
        (some ⟨5, 7⟩) false false storeTwoStudies =
      .error (.typeError "sequence item 0: expected str instance, int found")) ∧
    (Artifact.create vocabFix [("fp", 1)] "BIOM" none (some [1, 2])
        (some ⟨5, 7⟩) false false storeTwoDtypes =
      .error (.artifactCreationError
        "parents have multiple data types: 16S, 18S")) :=
  ⟨rfl, rfl⟩

/-- Claim C7: creation raises ArtifactCreationError when both parents and
prep_template are supplied, when neither is supplied, when parents is
supplied without processing_parameters, and when prep_template is supplied
together with processing_parameters. -/
theorem create_argument_combination_errors (v : Vocab)
    (fps : List (String × Nat)) (atype : String) (pt : Option Nat)
    (ps : Option (List Nat)) (pp : Option Parameters) (ce cv : Bool)
    (s : Store) :
    (pyTruthyList ps = true → pyTruthyObj pt = true →
      isCreationError (Artifact.create v fps atype pt ps pp ce cv s) = true) ∧
    (pyTruthyList ps = false → pyTruthyObj pt = false →
      isCreationError (Artifact.create v fps atype pt ps pp ce cv s) = true) ∧
    (pyTruthyList ps = true → pyTruthyObj pp = false →
      isCreationError (Artifact.create v fps atype pt ps pp ce cv s) = true) ∧
    (pyTruthyObj pt = true → pyTruthyObj pp = true →
      isCreationError (Artifact.create v fps atype pt ps pp ce cv s) = true) := by
  refine ⟨fun h1 h2 => ?_, fun h1 h2 => ?_, fun h1 h2 => ?_, fun h1 h2 => ?_⟩
  · cases fps with
    | nil => rfl
    | cons f rest => simp [Artifact.create, h1, h2, isCreationError]
  · cases fps with
    | nil => rfl
    | cons f rest => simp [Artifact.create, h1, h2, isCreationError]
  · cases fps with
    | nil => rfl
    | cons f rest =>
      cases hpt : pyTruthyObj pt <;>
        simp [Artifact.create, h1, h2, hpt, isCreationError]
  · cases fps with
    | nil => rfl
    | cons f rest =>
      cases hps : pyTruthyList ps <;>
        simp [Artifact.create, h1, h2, hps, isCreationError]

/-- Claim C7 witness: the four argument-combination errors at concrete
inputs. -/
theorem create_argument_combination_errors_witness :
    (isCreationError (Artifact.create vocabFix [("fp", 1)] "BIOM" (some 10)
      (some [1]) (some ⟨5, 7⟩) false false Store.empty) = true) ∧
    (isCreationError (Artifact.create vocabFix [("fp", 1)] "BIOM" none
      none none false false Store.empty) = true) ∧
    (isCreationError (Artifact.create vocabFix [("fp", 1)] "BIOM" none
      (some [1]) none false false Store.empty) = true) ∧
    (isCreationError (Artifact.create vocabFix [("fp", 1)] "BIOM" (some 10)
      none (some ⟨5, 7⟩) false false Store.empty) = true) :=
  ⟨(create_argument_combination_errors vocabFix [("fp", 1)] "BIOM" (some 10)
      (some [1]) (some ⟨5, 7⟩) false false Store.empty).1 rfl rfl,
   (create_argument_combination_errors vocabFix [("fp", 1)] "BIOM" none
      none none false false Store.empty).2.1 rfl rfl,
   (create_argument_combination_errors vocabFix [("fp", 1)] "BIOM" none
      (some [1]) none false false Store.empty).2.2.1 rfl rfl,
   (create_argument_combination_errors vocabFix [("fp", 1)] "BIOM" (some 10)
      none (some ⟨5, 7⟩) false false Store.empty).2.2.2 rfl rfl⟩

/-- Claim C10: create tests parents by truthiness, so an empty parents list
behaves exactly as an absent one: with a template it is the same call as a
template-only creation (and succeeds when the template and vocabulary
resolve), and without a template it raises the neither-supplied
ArtifactCreationError. -/
theorem create_empty_parents_is_absent (v : Vocab) (fps : List (String × Nat))
    (atype : String) (pt : Nat) (pp : Option Parameters) (ce cv : Bool)
    (s : Store) (vid atid dtid : Nat) (ptRec : PrepTemplateRec) :
    (Artifact.create v fps atype (some pt) (some []) pp ce cv s =
      Artifact.create v fps atype (some pt) none pp ce cv s) ∧
    (fps.isEmpty = false →
      Artifact.create v fps atype none (some []) pp ce cv s =
        .error (.artifactCreationError
          "at least parents or prep_template must be provided")) ∧
    (fps.isEmpty = false →
      convert_to_id v.visibility "sandbox" = .ok vid →
      convert_to_id v.artifactType atype = .ok atid →
      s.prepTemplates.find? (fun row => row.1 = pt) = some (pt, ptRec) →
      convert_to_id v.dataType ptRec.dataType = .ok dtid →
      ∃ aid s', Artifact.create v fps atype (some pt) (some []) none ce cv s =
        .ok (aid, s')) := by
  refine ⟨?_, ?_, ?_⟩
  · cases fps <;> rfl
  · intro hfp
    cases fps with
    | nil => simp [List.isEmpty] at hfp
    | cons f rest => simp [Artifact.create, pyTruthyList, pyTruthyObj]
  · intro hfp hvis hat hpt hdt
    cases fps with
    | nil => simp [List.isEmpty] at hfp
    | cons f rest =>
      simp [Artifact.create, hvis, hat, hpt, hdt, pyTruthyList, pyTruthyObj,
        Artifact.create.finishCreate]
      exact ⟨_, _, rfl⟩

/-- Claim C10 witness: on a concrete store with template 10, the empty-list
call equals the absent call and succeeds; without a template it raises. -/
theorem create_empty_parents_is_absent_witness :
    (Artifact.create vocabFix [("fp", 1)] "FASTQ" (some 10) (some []) none
        false false storeOneTemplate =
      Artifact.create vocabFix [("fp", 1)] "FASTQ" (some 10) none none
        false false storeOneTemplate) ∧
    (Artifact.create vocabFix [("fp", 1)] "FASTQ" none (some []) none
        false false storeOneTemplate =
      .error (.artifactCreationError
        "at least parents or prep_template must be provided")) ∧
    (∃ aid s', Artifact.create vocabFix [("fp", 1)] "FASTQ" (some 10)
        (some []) none false false storeOneTemplate = .ok (aid, s')) :=
  ⟨(create_empty_parents_is_absent vocabFix [("fp", 1)] "FASTQ" 10 none
      false false storeOneTemplate 1 1 1 ⟨"16S", 1, none⟩).1,
   (create_empty_parents_is_absent vocabFix [("fp", 1)] "FASTQ" 10 none
      false false storeOneTemplate 1 1 1 ⟨"16S", 1, none⟩).2.1 rfl,
   (create_empty_parents_is_absent vocabFix [("fp", 1)] "FASTQ" 10 none
      false false storeOneTemplate 1 1 1 ⟨"16S", 1, none⟩).2.2 rfl rfl rfl
      rfl rfl⟩

/-- Helper: binding a successful `Except` computation runs the
continuation. -/
@[simp] theorem exceptBind_ok {α β : Type} (a : α)
    (f : α → Except QiitaDBError β) : (Except.ok a >>= f) = f a := rfl

/-- Helper: binding a failed `Except` computation propagates the error. -/
@[simp] theorem exceptBind_error {α β : Type} (e : QiitaDBError)
    (f : α → Except QiitaDBError β) :
    ((Except.error e : Except QiitaDBError α) >>= f) = Except.error e := rfl

/-- Helper: `pure` in the `Except` monad is `Except.ok`. -/
@[simp] theorem exceptPure_eq {α : Type} (a : α) :
    (pure a : Except QiitaDBError α) = Except.ok a := rfl

/-- Helper: a successful artifact lookup pins down the `find?` result on the
artifact table, including the key of the found row. -/
theorem lookup_find {s : Store} {aid : Nat} {r : ArtifactRecord}
    (h : s.lookupArtifact aid = some r) :
    s.artifacts.find? (fun row => row.1 = aid) = some (aid, r) := by
  unfold Store.lookupArtifact at h
  cases hf : s.artifacts.find? (fun row => row.1 = aid) with
  | none => simp [hf] at h
  | some x =>
    obtain ⟨k, rec0⟩ := x
    have hk := List.find?_some hf
    simp at hk
    subst hk
    simp [hf] at h
    subst h
    rfl

/-- Claim C5: the EBI sub-machine.  Without the capability flag both setter
and getter raise OperationNotPermittedError; with it, a first set succeeds
and the getter thereafter returns exactly the submitted mapping, while a
second set (accessions already present) raises OperationNotPermittedError. -/
theorem ebi_accessions_capability_and_write_once (s : Store) (aid : Nat)
    (r : ArtifactRecord) (m m2 : List (String × String))
    (hr : s.lookupArtifact aid = some r) :
    (r.canBeSubmittedToEbi = false →
      isNotPermittedError (Artifact.set_ebi_run_accessions s aid m) = true ∧
      isNotPermittedError (Artifact.ebi_run_accessions s aid) = true) ∧
    (r.canBeSubmittedToEbi = true →
      s.ebiRunAccession.filter (fun row => row.2.1 = aid) = [] →
      ∃ s', Artifact.set_ebi_run_accessions s aid m = .ok s' ∧
        Artifact.ebi_run_accessions s' aid = .ok m ∧
        (m ≠ [] →
          isNotPermittedError (Artifact.set_ebi_run_accessions s' aid m2) = true)) ∧
    (r.canBeSubmittedToEbi = true →
      s.ebiRunAccession.filter (fun row => row.2.1 = aid) ≠ [] →
      isNotPermittedError (Artifact.set_ebi_run_accessions s aid m) = true) := by
  refine ⟨fun hc => ⟨?_, ?_⟩, fun hc hemp => ?_, fun hc hne => ?_⟩
  · simp [Artifact.set_ebi_run_accessions, Artifact.can_be_submitted_to_ebi, Except.map,
      Artifact.checkExists, hr, hc, isNotPermittedError]
  · simp [Artifact.ebi_run_accessions, Artifact.can_be_submitted_to_ebi, Except.map,
      Artifact.checkExists, hr, hc, isNotPermittedError]
  · refine ⟨{ s with ebiRunAccession :=
      s.ebiRunAccession ++ m.map (fun p => (p.1, aid, p.2)) }, ?_, ?_, ?_⟩
    · simp [Artifact.set_ebi_run_accessions, Artifact.can_be_submitted_to_ebi, Except.map,
        Artifact.checkExists, hr, hc, hemp]
    · simp [Artifact.ebi_run_accessions, Artifact.can_be_submitted_to_ebi, Except.map,
        Artifact.checkExists, Store.lookupArtifact, lookup_find hr, hc,
        List.filter_append, hemp, List.filter_map, Function.comp_def,
        List.map_map]
    · intro hm
      simp [Artifact.set_ebi_run_accessions, Artifact.can_be_submitted_to_ebi, Except.map,
        Artifact.checkExists, Store.lookupArtifact, lookup_find hr, hc,
        List.filter_append, hemp, List.filter_map, Function.comp_def,
        isNotPermittedError, List.isEmpty_iff, hm]
  · simp [Artifact.set_ebi_run_accessions, Artifact.can_be_submitted_to_ebi, Except.map,
      Artifact.checkExists, hr, hc, isNotPermittedError, List.isEmpty_iff, hne]

/-- Claim C6: the VAMPS sub-machine.  Without the capability flag both read
and write raise OperationNotPermittedError; with it, a write may set the
flag to either value regardless of its current value, and a subsequent read
returns the last written value. -/
theorem vamps_capability_gating (s : Store) (aid : Nat) (r : ArtifactRecord)
    (hr : s.lookupArtifact aid = some r) :
    (r.canBeSubmittedToVamps = false →
      isNotPermittedError (Artifact.is_submitted_to_vamps s aid) = true ∧
      ∀ b, isNotPermittedError (Artifact.set_is_submitted_to_vamps s aid b) = true) ∧
    (r.canBeSubmittedToVamps = true →
      ∀ b, ∃ s', Artifact.set_is_submitted_to_vamps s aid b = .ok s' ∧
        Artifact.is_submitted_to_vamps s' aid = .ok b) := by
  constructor
  · intro hc
    constructor
    · simp [Artifact.is_submitted_to_vamps, Artifact.can_be_submitted_to_vamps, Except.map,
        Artifact.checkExists, hr, hc, isNotPermittedError]
    · intro b
      simp [Artifact.set_is_submitted_to_vamps, Artifact.can_be_submitted_to_vamps, Except.map,
        Artifact.checkExists, hr, hc, isNotPermittedError]
  · intro hc b
    refine ⟨{ s with artifacts := s.artifacts.map (fun row =>
      if row.1 = aid then (row.1, { row.2 with submittedToVamps := b })
      else row) }, ?_, ?_⟩
    · simp [Artifact.set_is_submitted_to_vamps, Artifact.can_be_submitted_to_vamps, Except.map,
        Artifact.checkExists, hr, hc]
    · have hfind : (s.artifacts.map (fun row =>
        if row.1 = aid then (row.1, { row.2 with submittedToVamps := b })
        else row)).find? (fun row => row.1 = aid) =
          some (aid, { r with submittedToVamps := b }) := by
        rw [List.find?_map]
        have hcomp : ((fun row : Nat × ArtifactRecord => decide (row.1 = aid)) ∘
            (fun row : Nat × ArtifactRecord =>
              if row.1 = aid then (row.1, { row.2 with submittedToVamps := b })
              else row)) = fun row => decide (row.1 = aid) := by
          funext row
          by_cases h : row.1 = aid <;> simp [h]
        rw [hcomp, lookup_find hr]
        simp
      simp [Artifact.is_submitted_to_vamps, Artifact.can_be_submitted_to_vamps, Except.map,
        Artifact.checkExists, Store.lookupArtifact, hfind, hc]

/-- One artifact (id 1, study 1) that can be submitted to EBI, with no
accessions yet. -/
def storeEbi : Store :=
  ⟨[(1, rootRec 1 1 true false false)], [], [(1, 1)], [], [], [], [], [], 2, 1⟩

/-- Same as `storeEbi` but with one accession already recorded. -/
def storeEbiSubmitted : Store :=
  { storeEbi with ebiRunAccession := [("s1", 1, "ERR001")] }

/-- One artifact (id 1, study 1) that can be submitted to VAMPS, flag
false. -/
def storeVamps : Store :=
  ⟨[(1, rootRec 1 1 false true false)], [], [(1, 1)], [], [], [], [], [], 2, 1⟩

/-- Claim C5 witness: the EBI sub-machine at concrete stores. -/
theorem ebi_accessions_capability_and_write_once_witness :
    (isNotPermittedError
        (Artifact.set_ebi_run_accessions storeTwoRoots 1 [("s1", "ERR001")]) = true ∧
      isNotPermittedError (Artifact.ebi_run_accessions storeTwoRoots 1) = true) ∧
    (∃ s', Artifact.set_ebi_run_accessions storeEbi 1 [("s1", "ERR001")] = .ok s' ∧
      Artifact.ebi_run_accessions s' 1 = .ok [("s1", "ERR001")] ∧
      ([("s1", "ERR001")] ≠ ([] : List (String × String)) →
        isNotPermittedError
          (Artifact.set_ebi_run_accessions s' 1 [("s2", "ERR002")]) = true)) ∧
    isNotPermittedError
      (Artifact.set_ebi_run_accessions storeEbiSubmitted 1 [("s1", "ERR001")]) = true :=
  ⟨(ebi_accessions_capability_and_write_once storeTwoRoots 1
      (rootRec 1 1 false false false) [("s1", "ERR001")] [("s2", "ERR002")]
      rfl).1 rfl,
   (ebi_accessions_capability_and_write_once storeEbi 1
      (rootRec 1 1 true false false) [("s1", "ERR001")] [("s2", "ERR002")]
      rfl).2.1 rfl rfl,
   (ebi_accessions_capability_and_write_once storeEbiSubmitted 1
      (rootRec 1 1 true false false) [("s1", "ERR001")] [("s2", "ERR002")]
      rfl).2.2 rfl (by decide)⟩

/-- Claim C6 witness: the VAMPS sub-machine at concrete stores. -/
theorem vamps_capability_gating_witness :
    (isNotPermittedError (Artifact.is_submitted_to_vamps storeTwoRoots 1) = true ∧
      ∀ b, isNotPermittedError
        (Artifact.set_is_submitted_to_vamps storeTwoRoots 1 b) = true) ∧
    (∀ b, ∃ s', Artifact.set_is_submitted_to_vamps storeVamps 1 b = .ok s' ∧
      Artifact.is_submitted_to_vamps s' 1 = .ok b) :=
  ⟨(vamps_capability_gating storeTwoRoots 1 (rootRec 1 1 false false false)
      rfl).1 rfl,
   (vamps_capability_gating storeVamps 1 (rootRec 1 1 false true false)
      rfl).2 rfl⟩

/-- Helper: joining Python strings never raises and produces the
separator-interleaved concatenation. -/
theorem strJoin_map_str {α : Type} (sep : String) (f : α → String)
    (xs : List α) :
    strJoin sep (xs.map (fun c => PyVal.pyStr (f c))) =
      .ok (String.intercalate sep (xs.map f)) := by
  have hgo : ∀ i, strJoin.go i (xs.map (fun c => PyVal.pyStr (f c))) =
      .ok (xs.map f) := by
    induction xs with
    | nil => intro i; rfl
    | cons x t ih => intro i; simp [strJoin.go, ih, Except.map]
  unfold strJoin
  simp [hgo, Except.map]

/-- Claim C2: delete checks the five deletability preconditions in source
order — public visibility, children (listing the child ids), analysis
reference, EBI submission, VAMPS submission — and raises
ArtifactDeletionError with the artifact id and the first violated reason;
an error result carries no store, so nothing is mutated.  A sixth conjunct
shows that when every check passes (and the artifact has a study row) the
deletion succeeds. -/
theorem delete_checks_in_order (v : Vocab) (s : Store) (aid : Nat)
    (r : ArtifactRecord) (vis : String)
    (hr : s.lookupArtifact aid = some r)
    (hv : vocab_value v.visibility r.visibilityId = .ok vis) :
    (vis = "public" →
      Artifact.delete v aid s = .error (.artifactDeletionError aid "it is public")) ∧
    (vis ≠ "public" → Artifact.children s aid ≠ [] →
      Artifact.delete v aid s = .error (.artifactDeletionError aid
        ("it has children: " ++
          String.intercalate ", " ((Artifact.children s aid).map toString)))) ∧
    (vis ≠ "public" → Artifact.children s aid = [] →
      aid ∈ s.analysisSample →
      Artifact.delete v aid s =
        .error (.artifactDeletionError aid "it has been analyzed")) ∧
    (vis ≠ "public" → Artifact.children s aid = [] →
      aid ∉ s.analysisSample → r.canBeSubmittedToEbi = true →
      s.ebiRunAccession.filter (fun row => row.2.1 = aid) ≠ [] →
      Artifact.delete v aid s =
        .error (.artifactDeletionError aid "it has been submitted to EBI")) ∧
    (vis ≠ "public" → Artifact.children s aid = [] →
      aid ∉ s.analysisSample →
      (r.canBeSubmittedToEbi = false ∨
        s.ebiRunAccession.filter (fun row => row.2.1 = aid) = []) →
      r.canBeSubmittedToVamps = true → r.submittedToVamps = true →
      Artifact.delete v aid s =
        .error (.artifactDeletionError aid "it has been submitted to VAMPS")) ∧
    (vis ≠ "public" → Artifact.children s aid = [] →
      aid ∉ s.analysisSample →
      (r.canBeSubmittedToEbi = false ∨
        s.ebiRunAccession.filter (fun row => row.2.1 = aid) = []) →
      (r.canBeSubmittedToVamps = false ∨ r.submittedToVamps = false) →
      ∀ sid, Artifact.study s aid = .ok sid →
      ∃ s', Artifact.delete v aid s = .ok s') := by
  refine ⟨fun hpub => ?_, fun hnp hch => ?_, fun hnp hch ha => ?_,
    fun hnp hch ha hce hne => ?_, fun hnp hch ha hebi hcv hsv => ?_,
    fun hnp hch ha hebi hvamps sid hsid => ?_⟩
  · simp [Artifact.delete, Artifact.visibility, Artifact.checkExists, hr, hv, hpub]
  · simp [Artifact.delete, Artifact.visibility, Artifact.checkExists, hr, hv,
      hnp, List.isEmpty_iff, hch, Function.comp_def, strJoin_map_str]
  · simp [Artifact.delete, Artifact.visibility, Artifact.checkExists, hr, hv,
      hnp, List.isEmpty_iff, hch, ha]
  · simp [Artifact.delete, Artifact.visibility, Artifact.checkExists, hr, hv,
      hnp, List.isEmpty_iff, hch, ha, Artifact.ebi_run_accessions,
      Artifact.ebiDeleteCheck, Artifact.can_be_submitted_to_ebi, Except.map,
      hce, hne]
  · rcases hebi with hce | hemp
    · simp [Artifact.delete, Artifact.visibility, Artifact.checkExists, hr, hv,
        hnp, List.isEmpty_iff, hch, ha, Artifact.ebi_run_accessions,
        Artifact.ebiDeleteCheck, Artifact.vampsDeleteCheck,
        Artifact.is_submitted_to_vamps, Artifact.can_be_submitted_to_ebi,
        Artifact.can_be_submitted_to_vamps, Except.map, hce, hcv, hsv]
    · by_cases hce2 : r.canBeSubmittedToEbi = true <;>
        simp [Artifact.delete, Artifact.visibility, Artifact.checkExists, hr, hv,
          hnp, List.isEmpty_iff, hch, ha, Artifact.ebi_run_accessions,
          Artifact.ebiDeleteCheck, Artifact.vampsDeleteCheck,
          Artifact.is_submitted_to_vamps, Artifact.can_be_submitted_to_ebi,
          Artifact.can_be_submitted_to_vamps, Except.map, hce2, hemp, hcv, hsv]
  · rcases hebi with hce | hemp <;> rcases hvamps with hcv | hsv
    · simp [Artifact.delete, Artifact.visibility, Artifact.checkExists, hr, hv,
        hnp, List.isEmpty_iff, hch, ha, Artifact.ebi_run_accessions,
        Artifact.ebiDeleteCheck, Artifact.vampsDeleteCheck,
        Artifact.is_submitted_to_vamps, Artifact.can_be_submitted_to_ebi,
        Artifact.can_be_submitted_to_vamps, Except.map, hce, hcv, hsid]
    · by_cases hcv2 : r.canBeSubmittedToVamps = true <;>
        simp [Artifact.delete, Artifact.visibility, Artifact.checkExists, hr, hv,
          hnp, List.isEmpty_iff, hch, ha, Artifact.ebi_run_accessions,
          Artifact.ebiDeleteCheck, Artifact.vampsDeleteCheck,
          Artifact.is_submitted_to_vamps, Artifact.can_be_submitted_to_ebi,
          Artifact.can_be_submitted_to_vamps, Except.map, hce, hcv2, hsv, hsid]
    · by_cases hce2 : r.canBeSubmittedToEbi = true <;>
        simp [Artifact.delete, Artifact.visibility, Artifact.checkExists, hr, hv,
          hnp, List.isEmpty_iff, hch, ha, Artifact.ebi_run_accessions,
          Artifact.ebiDeleteCheck, Artifact.vampsDeleteCheck,
          Artifact.is_submitted_to_vamps, Artifact.can_be_submitted_to_ebi,
          Artifact.can_be_submitted_to_vamps, Except.map, hce2, hemp, hcv, hsid]
    · by_cases hce2 : r.canBeSubmittedToEbi = true <;>
        by_cases hcv2 : r.canBeSubmittedToVamps = true <;>
        simp [Artifact.delete, Artifact.visibility, Artifact.checkExists, hr, hv,
          hnp, List.isEmpty_iff, hch, ha, Artifact.ebi_run_accessions,
          Artifact.ebiDeleteCheck, Artifact.vampsDeleteCheck,
          Artifact.is_submitted_to_vamps, Artifact.can_be_submitted_to_ebi,
          Artifact.can_be_submitted_to_vamps, Except.map, hce2, hemp, hcv2, hsv,
          hsid]

/-- A public root artifact 1 with one child 2 (both study 1). -/
def storePublicWithChild : Store :=
  ⟨[(1, rootRec 1 3 false false false),
    (2, ⟨some 7, some 5, 1, 1, 1, false, false, false⟩)],
   [(2, 1)], [(1, 1), (1, 2)], [], [], [], [], [], 3, 1⟩

/-- A sandbox root artifact 1 with one child 2 (both study 1). -/
def storeSandboxWithChild : Store :=
  ⟨[(1, rootRec 1 1 false false false),
    (2, ⟨some 7, some 5, 1, 1, 1, false, false, false⟩)],
   [(2, 1)], [(1, 1), (1, 2)], [], [], [], [], [], 3, 1⟩

/-- Claim C2 witness: a public artifact that also has a child fails on the
visibility check first; the same artifact in sandbox visibility fails on
the children check, listing the child id. -/
theorem delete_checks_in_order_witness :
    (Artifact.delete vocabFix 1 storePublicWithChild =
      .error (.artifactDeletionError 1 "it is public")) ∧
    (Artifact.delete vocabFix 1 storeSandboxWithChild =
      .error (.artifactDeletionError 1 "it has children: 2")) :=
  ⟨(delete_checks_in_order vocabFix storePublicWithChild 1
      (rootRec 1 3 false false false) "public" rfl rfl).1 rfl,
   (delete_checks_in_order vocabFix storeSandboxWithChild 1
      (rootRec 1 1 false false false) "sandbox" rfl rfl).2.1
      (by decide) (by decide)⟩

/-- Helper: `checkExists` succeeds exactly on a successful row lookup. -/
theorem checkExists_ok {s : Store} {aid : Nat} {r : ArtifactRecord} :
    Artifact.checkExists s aid = .ok r ↔ s.lookupArtifact aid = some r := by
  unfold Artifact.checkExists
  cases s.lookupArtifact aid <;> simp

/-- Helper: full characterization of a successful `delete`.  The artifact
row, its study association and its filepath links are removed; non-root
artifacts additionally lose exactly their own parent edges, while root
artifacts have their files relocated to the upload folder of their study
and the back-references of their reachable prep templates nulled. -/
theorem delete_ok_spec (v : Vocab) (s : Store) (aid : Nat) (s' : Store)
    (h : Artifact.delete v aid s = .ok s') :
    ∃ r sid, s.lookupArtifact aid = some r ∧ Artifact.study s aid = .ok sid ∧
      s'.nextArtifactId = s.nextArtifactId ∧
      s'.nextFilepathId = s.nextFilepathId ∧
      s'.artifacts = s.artifacts.filter (fun row => row.1 ≠ aid) ∧
      s'.studyArtifact = s.studyArtifact.filter (fun row => row.2 ≠ aid) ∧
      s'.artifactFilepath = s.artifactFilepath.filter (fun row => row.1 ≠ aid) ∧
      s'.ebiRunAccession = s.ebiRunAccession ∧
      s'.analysisSample = s.analysisSample ∧
      ((Artifact.parents s aid = [] ∧
          s'.parentArtifact = s.parentArtifact ∧
          s'.uploadFolder = s.uploadFolder ++
            (Artifact.filepaths s aid).map (fun fp => (sid, fp)) ∧
          s'.prepTemplates = s.prepTemplates.map (fun row =>
            if (Artifact.prep_templates s aid).contains row.1
            then (row.1, { row.2 with artifactId := none }) else row)) ∨
       (Artifact.parents s aid ≠ [] ∧
          s'.parentArtifact = s.parentArtifact.filter (fun row => row.1 ≠ aid) ∧
          s'.uploadFolder = s.uploadFolder ∧
          s'.prepTemplates = s.prepTemplates)) := by
  unfold Artifact.delete at h
  cases hr : Artifact.checkExists s aid with
  | error e => rw [hr] at h; simp at h
  | ok r =>
  rw [hr] at h
  simp only [exceptBind_ok] at h
  cases hv : Artifact.visibility v s aid with
  | error e => rw [hv] at h; simp at h
  | ok vis =>
  rw [hv] at h
  simp only [exceptBind_ok] at h
  by_cases hpub : vis = "public"
  · simp [hpub] at h
  rw [if_neg hpub] at h
  by_cases hch : (Artifact.children s aid).isEmpty
  case neg =>
    rw [Bool.not_eq_true] at hch
    rw [if_pos (by simp [hch])] at h
    cases hsj : strJoin ", "
        ((Artifact.children s aid).map (fun c => PyVal.pyStr (toString c))) <;>
      rw [hsj] at h <;> simp at h
  case pos =>
  rw [if_neg (by simp [hch])] at h
  by_cases han : s.analysisSample.contains aid
  · rw [if_pos han] at h; simp at h
  rw [if_neg han] at h
  cases hebi : Artifact.ebiDeleteCheck s aid r with
  | error e => rw [hebi] at h; simp at h
  | ok b =>
  rw [hebi] at h
  simp only [exceptBind_ok] at h
  cases b with
  | true => rw [if_pos rfl] at h; simp at h
  | false =>
  rw [if_neg (by simp)] at h
  cases hvamps : Artifact.vampsDeleteCheck s aid r with
  | error e => rw [hvamps] at h; simp at h
  | ok b2 =>
  rw [hvamps] at h
  simp only [exceptBind_ok] at h
  cases b2 with
  | true => rw [if_pos rfl] at h; simp at h
  | false =>
  rw [if_neg (by simp)] at h
  cases hsid : Artifact.study s aid with
  | error e => rw [hsid] at h; simp at h
  | ok sid =>
  rw [hsid] at h
  simp only [exceptBind_ok, exceptPure_eq, Except.ok.injEq] at h
  subst h
  refine ⟨r, sid, checkExists_ok.mp hr, rfl, ?_, ?_, ?_, ?_, ?_, ?_, ?_, ?_⟩
  · simp [apply_ite]
  · simp [apply_ite]
  · simp [apply_ite]
  · simp [apply_ite]
  · simp [apply_ite]
  · simp [apply_ite]
  · simp [apply_ite]
  · by_cases hpar : (Artifact.parents s aid).isEmpty
    · have hpar2 := List.isEmpty_iff.mp hpar
      exact Or.inl ⟨hpar2, by simp [apply_ite, hpar2], by simp [apply_ite, hpar2],
        by simp [apply_ite, hpar2]⟩
    · have hpar2 : Artifact.parents s aid ≠ [] := by
        simpa [List.isEmpty_iff] using hpar
      exact Or.inr ⟨hpar2, by simp [apply_ite, hpar2], by simp [apply_ite, hpar2],
        by simp [apply_ite, hpar2]⟩

/-- Helper: removing the rows keyed by `aid` does not change lookups of a
different key `b`. -/
theorem find_ne_of_filter_ne {α : Type} (l : List (Nat × α)) (aid b : Nat)
    (hne : b ≠ aid) :
    (l.filter (fun row => row.1 ≠ aid)).find? (fun row => row.1 = b) =
      l.find? (fun row => row.1 = b) := by
  induction l with
  | nil => rfl
  | cons x t ih =>
    rw [List.filter_cons]
    by_cases hx : x.1 = aid
    · rw [if_neg (by simp [hx]), ih,
        List.find?_cons_of_neg _ (by simp [hx, Ne.symm hne])]
    · rw [if_pos (by simp [hx])]
      by_cases hb : x.1 = b
      · rw [List.find?_cons_of_pos _ (by simp [hb]),
          List.find?_cons_of_pos _ (by simp [hb])]
      · rw [List.find?_cons_of_neg _ (by simp [hb]),
          List.find?_cons_of_neg _ (by simp [hb]), ih]

/-- Helper: removing the rows keyed by `aid` does not change the row set of
a different key `b`. -/
theorem filter_ne_of_filter_ne {α : Type} (l : List (Nat × α)) (aid b : Nat)
    (hne : b ≠ aid) :
    (l.filter (fun row => row.1 ≠ aid)).filter (fun row => row.1 = b) =
      l.filter (fun row => row.1 = b) := by
  induction l with
  | nil => rfl
  | cons x t ih =>
    rw [List.filter_cons]
    by_cases hx : x.1 = aid
    · rw [if_neg (by simp [hx]), ih, List.filter_cons,
        if_neg (by simp [hx, Ne.symm hne])]
    · rw [if_pos (by simp [hx]), List.filter_cons, List.filter_cons]
      by_cases hb : x.1 = b
      · rw [if_pos (by simp [hb]), if_pos (by simp [hb]), ih]
      · rw [if_neg (by simp [hb]), if_neg (by simp [hb]), ih]

/-- Claim C8: frame conditions of deletion.  A successful delete of a
non-root artifact removes exactly its own parent edges and leaves every
other artifact record, the parent edge rows of other artifacts, the EBI
accessions and the prep templates unchanged.  A successful delete of a root
artifact appends its files, tagged with its study, to the upload area and
nulls the artifact back-reference of exactly the templates linked to it. -/
theorem delete_frame_effects (v : Vocab) (s : Store) (aid : Nat) (s' : Store)
    (hdel : Artifact.delete v aid s = .ok s') :
    (Artifact.parents s aid ≠ [] →
      s'.parentArtifact = s.parentArtifact.filter (fun row => row.1 ≠ aid) ∧
      (∀ b, b ≠ aid → s'.lookupArtifact b = s.lookupArtifact b) ∧
      (∀ b, b ≠ aid → Artifact.parents s' b = Artifact.parents s b) ∧
      s'.ebiRunAccession = s.ebiRunAccession ∧
      s'.prepTemplates = s.prepTemplates) ∧
    (Artifact.parents s aid = [] →
      ∀ sid, Artifact.study s aid = .ok sid →
      s'.uploadFolder = s.uploadFolder ++
        (Artifact.filepaths s aid).map (fun fp => (sid, fp)) ∧
      s'.artifactFilepath = s.artifactFilepath.filter (fun row => row.1 ≠ aid) ∧
      ((s.prepTemplates.map Prod.fst).Nodup →
        s'.prepTemplates = s.prepTemplates.map (fun row =>
          if row.2.artifactId = some aid then
            (row.1, { row.2 with artifactId := none })
          else row))) := by
  obtain ⟨r, sid0, hlk, hst, hnext, hnfp, hart, hsa, hafp, hebi, hana, hcase⟩ :=
    delete_ok_spec v s aid s' hdel
  constructor
  · intro hp
    rcases hcase with ⟨hroot, _⟩ | ⟨_, hpa, hup, hpt⟩
    · exact absurd hroot hp
    refine ⟨hpa, fun b hb => ?_, fun b hb => ?_, hebi, hpt⟩
    · unfold Store.lookupArtifact
      rw [hart, find_ne_of_filter_ne s.artifacts aid b hb]
    · unfold Artifact.parents
      rw [hpa, filter_ne_of_filter_ne s.parentArtifact aid b hb]
  · intro hp sid hsid
    rcases hcase with ⟨_, hpa, hup, hpt⟩ | ⟨hnroot, _⟩
    · have hsid0 : sid0 = sid := by
        rw [hst] at hsid
        exact (Except.ok.injEq _ _).mp hsid
      subst hsid0
      refine ⟨hup, hafp, fun hnodup => ?_⟩
      have hroots : Artifact.find_artifact_roots s (s.nextArtifactId + 1) aid =
          [aid] := by
        simp [Artifact.find_artifact_roots, hp]
      have hpts : Artifact.prep_templates s aid =
          (s.prepTemplates.filter
            (fun row => row.2.artifactId = some aid)).map
              (fun row => row.1) := by
        unfold Artifact.prep_templates
        rw [hroots]
        show (s.prepTemplates.filter (fun row =>
            match row.2.artifactId with
            | some a => [aid].contains a
            | none => false)).map (fun row => row.1) = _
        congr 1
        apply List.filter_congr
        intro row _
        cases hoc : row.2.artifactId <;> simp [hoc]
      have hkey : ∀ row ∈ s.prepTemplates,
          ((Artifact.prep_templates s aid).contains row.1 = true) ↔
            row.2.artifactId = some aid := by
        intro row hrow
        have hmem : ((Artifact.prep_templates s aid).contains row.1 = true) ↔
            row.1 ∈ Artifact.prep_templates s aid := by
          simp [List.contains, List.elem_iff]
        rw [hmem, hpts]
        constructor
        · intro hcont
          simp only [List.mem_map] at hcont
          obtain ⟨row2, hrow2, hfst⟩ := hcont
          have hrow2mem := List.mem_of_mem_filter hrow2
          have hpred := List.of_mem_filter hrow2
          have heq : row2 = row :=
            List.inj_on_of_nodup_map hnodup hrow2mem hrow hfst
          subst heq
          simpa using hpred
        · intro hid
          simp only [List.mem_map]
          exact ⟨row, List.mem_filter.mpr ⟨hrow, by simpa using hid⟩, rfl⟩
      rw [hpt]
      apply List.map_congr_left
      intro row hrow
      by_cases hid : row.2.artifactId = some aid
      · rw [if_pos ((hkey row hrow).mpr hid), if_pos hid]
      · rw [if_neg (fun hc => hid ((hkey row hrow).mp hc)), if_neg hid]
    · exact absurd hp hnroot

/-- A child artifact 3 with parent 1, both in study 1; template 10 is
linked to the root 1. -/
def storeChild : Store :=
  ⟨[(1, rootRec 1 1 false false false),
    (3, ⟨some 7, some 5, 1, 1, 2, false, false, false⟩)],
   [(3, 1)], [(1, 1), (1, 3)], [(3, 1)], [], [(10, ⟨"16S", 1, some 1⟩)],
   [], [], 4, 2⟩

/-- A single root artifact 1 in study 1 with one file and a linked
template 10. -/
def storeRootTmpl : Store :=
  ⟨[(1, rootRec 1 1 false false false)],
   [], [(1, 1)], [(1, 1)], [], [(10, ⟨"16S", 1, some 1⟩)], [], [], 2, 2⟩

/-- The store after deleting the non-root artifact 3 from `storeChild`. -/
def storeChildDeleted : Store :=
  ⟨[(1, rootRec 1 1 false false false)],
   [], [(1, 1)], [], [], [(10, ⟨"16S", 1, some 1⟩)], [], [], 4, 2⟩

/-- The store after deleting the root artifact 1 from `storeRootTmpl`. -/
def storeRootDeleted : Store :=
  ⟨[], [], [], [], [], [(10, ⟨"16S", 1, none⟩)], [], [(1, 1)], 2, 2⟩

/-- Claim C8 witness: deleting the non-root artifact 3 succeeds, removes its
parent edge, and leaves the parent record 1 unchanged; deleting the root
artifact 1 succeeds, relocates its file to the upload area of study 1, and
nulls the back-reference of template 10. -/
theorem delete_frame_effects_witness :
    (Artifact.delete vocabFix 3 storeChild = .ok storeChildDeleted ∧
      storeChildDeleted.parentArtifact =
        storeChild.parentArtifact.filter (fun row => row.1 ≠ 3) ∧
      storeChildDeleted.lookupArtifact 1 = storeChild.lookupArtifact 1) ∧
    (Artifact.delete vocabFix 1 storeRootTmpl = .ok storeRootDeleted ∧
      storeRootDeleted.uploadFolder = storeRootTmpl.uploadFolder ++
        (Artifact.filepaths storeRootTmpl 1).map (fun fp => (1, fp)) ∧
      storeRootDeleted.prepTemplates = storeRootTmpl.prepTemplates.map
        (fun row => if row.2.artifactId = some 1 then
          (row.1, { row.2 with artifactId := none }) else row)) :=
  ⟨⟨rfl,
    ((delete_frame_effects vocabFix storeChild 3 storeChildDeleted rfl).1
      (by decide)).1,
    ((delete_frame_effects vocabFix storeChild 3 storeChildDeleted rfl).1
      (by decide)).2.1 1 (by decide)⟩,
   ⟨rfl,
    ((delete_frame_effects vocabFix storeRootTmpl 1 storeRootDeleted rfl).2
      rfl 1 rfl).1,
    ((delete_frame_effects vocabFix storeRootTmpl 1 storeRootDeleted rfl).2
      rfl 1 rfl).2.2 (by decide)⟩⟩

/-- Helper: a successful `mapM` in the `Except` monad succeeds pointwise. -/
theorem mapM_ok_forall {α β : Type} (f : α → Except QiitaDBError β)
    (l : List α) (res : List β) (h : l.mapM f = .ok res) :
    ∀ a ∈ l, ∃ b, f a = .ok b := by
  induction l generalizing res with
  | nil => simp
  | cons x t ih =>
    rw [List.mapM_cons] at h
    cases hfx : f x with
    | error e => rw [hfx] at h; simp at h
    | ok b =>
      rw [hfx] at h
      simp only [exceptBind_ok] at h
      cases hft : t.mapM f with
      | error e => rw [hft] at h; simp at h
      | ok bs =>
        rw [hft] at h
        intro a ha
        rcases List.mem_cons.mp ha with rfl | hat
        · exact ⟨b, hfx⟩
        · exact ih bs hft a hat

/-- Helper: a successful `data_type` read implies the artifact row exists. -/
theorem data_type_ok_lookup {v : Vocab} {s : Store} {p : Nat} {d : String}
    (h : Artifact.data_type v s p = .ok d) :
    (s.lookupArtifact p).isSome = true := by
  unfold Artifact.data_type Artifact.checkExists at h
  cases hl : s.lookupArtifact p with
  | none => rw [hl] at h; simp at h
  | some r => rfl

/-- Helper: full characterization of a successful `create`.  The new
artifact receives the fresh id, the id counter advances, exactly one
artifact row is appended, and parent edges are appended exactly when a
truthy parents argument was supplied — and then only from parents whose
artifact rows exist. -/
theorem create_ok_spec (v : Vocab) (fps : List (String × Nat))
    (atype : String) (pt : Option Nat) (ps : Option (List Nat))
    (pp : Option Parameters) (ce cv : Bool) (s : Store) (aid : Nat)
    (s' : Store)
    (h : Artifact.create v fps atype pt ps pp ce cv s = .ok (aid, s')) :
    aid = s.nextArtifactId ∧
    s'.nextArtifactId = s.nextArtifactId + 1 ∧
    (∃ row : ArtifactRecord, s'.artifacts = s.artifacts ++ [(aid, row)] ∧
      (pyTruthyList ps = true → ∃ X, pp = some X ∧
        row.commandId = some X.commandId ∧
        row.commandParametersId = some X.id)) ∧
    ((pyTruthyList ps = true ∧
        (∀ p ∈ ps.getD [], (s.lookupArtifact p).isSome = true) ∧
        s'.parentArtifact = s.parentArtifact ++
          (ps.getD []).map (fun p => (s.nextArtifactId, p))) ∨
      (pyTruthyList ps = false ∧ s'.parentArtifact = s.parentArtifact)) := by
  unfold Artifact.create at h
  by_cases hfp : fps.isEmpty = true
  · rw [if_pos hfp] at h; simp at h
  rw [if_neg hfp] at h
  by_cases hc2 : (pyTruthyList ps && pyTruthyObj pt) = true
  · rw [if_pos hc2] at h; simp at h
  rw [if_neg hc2] at h
  by_cases hc3 : (!(pyTruthyList ps || pyTruthyObj pt)) = true
  · rw [if_pos hc3] at h; simp at h
  rw [if_neg hc3] at h
  by_cases hc4 : (pyTruthyList ps && !pyTruthyObj pp) = true
  · rw [if_pos hc4] at h; simp at h
  rw [if_neg hc4] at h
  by_cases hc5 : (pyTruthyObj pt && pyTruthyObj pp) = true
  · rw [if_pos hc5] at h; simp at h
  rw [if_neg hc5] at h
  cases hvis : convert_to_id v.visibility "sandbox" with
  | error e => rw [hvis] at h; simp at h
  | ok vid =>
  rw [hvis] at h
  simp only [exceptBind_ok] at h
  cases hat : convert_to_id v.artifactType atype with
  | error e => rw [hat] at h; simp at h
  | ok atid =>
  rw [hat] at h
  simp only [exceptBind_ok] at h
  by_cases hps : pyTruthyList ps = true
  case pos =>
    rw [if_pos hps] at h
    cases hsl : List.mapM (fun p => Artifact.study s p) (ps.getD []) with
    | error e => rw [hsl] at h; simp at h
    | ok studyIdList =>
    rw [hsl] at h
    simp only [exceptBind_ok] at h
    by_cases hslen : studyIdList.dedup.length > 1
    · rw [if_pos hslen] at h
      cases hj : strJoin ", " (List.map PyVal.pyInt studyIdList.dedup) <;>
        rw [hj] at h <;> simp at h
    rw [if_neg hslen] at h
    cases hdl : List.mapM (fun p => Artifact.data_type v s p) (ps.getD []) with
    | error e => rw [hdl] at h; simp at h
    | ok dtypeList =>
    rw [hdl] at h
    simp only [exceptBind_ok] at h
    by_cases hdlen : dtypeList.dedup.length > 1
    · rw [if_pos hdlen] at h
      cases hj : strJoin ", " (List.map PyVal.pyStr dtypeList.dedup) <;>
        rw [hj] at h <;> simp at h
    rw [if_neg hdlen] at h
    cases pp with
    | none => simp at h
    | some X =>
    cases hdt : convert_to_id v.dataType (List.headD dtypeList.dedup "") with
    | error e => rw [hdt] at h; simp at h
    | ok dtid =>
    rw [hdt] at h
    simp only [exceptBind_ok] at h
    unfold Artifact.create.finishCreate at h
    simp only [Except.ok.injEq, Prod.mk.injEq] at h
    obtain ⟨haid, hs2⟩ := h
    subst haid
    subst hs2
    refine ⟨rfl, by simp, ⟨⟨some X.commandId, some X.id, dtid, vid, atid,
      ce, cv, false⟩, by simp, fun _ => ⟨X, rfl, rfl, rfl⟩⟩,
      Or.inl ⟨hps, ?_, by simp⟩⟩
    intro p hp
    obtain ⟨d, hd⟩ := mapM_ok_forall _ _ _ hdl p hp
    exact data_type_ok_lookup hd
  case neg =>
    rw [if_neg hps] at h
    cases hf : s.prepTemplates.find? (fun row => row.1 = pt.getD 0) with
    | none => rw [hf] at h; simp at h
    | some ptrow =>
    rw [hf] at h
    simp only [exceptPure_eq, exceptBind_ok] at h
    cases hdt : convert_to_id v.dataType ptrow.2.dataType with
    | error e => rw [hdt] at h; simp at h
    | ok dtid =>
    rw [hdt] at h
    simp only [exceptBind_ok] at h
    unfold Artifact.create.finishCreate at h
    simp only [Except.ok.injEq, Prod.mk.injEq] at h
    obtain ⟨haid, hs2⟩ := h
    subst haid
    subst hs2
    exact ⟨rfl, by simp, ⟨⟨none, none, dtid, vid, atid, ce, cv, false⟩,
      by simp, fun htr => absurd htr hps⟩,
      Or.inr ⟨by simpa using hps, by simp⟩⟩

/-- Claim C4: round-trip of a successful parent-derived creation.  Reading
`processing_parameters` of the new artifact returns exactly the supplied
command and parameter-set pair, and reading `parents` returns exactly the
supplied parent list.  The two well-formedness hypotheses (all artifact ids
and edge child ids are below the id counter) hold in every reachable store
and rule out a stale row under the fresh id. -/
theorem create_roundtrip (v : Vocab) (fps : List (String × Nat))
    (atype : String) (P : List Nat) (X : Parameters) (ce cv : Bool)
    (s : Store) (aid : Nat) (s' : Store)
    (hwfa : ∀ row ∈ s.artifacts, row.1 < s.nextArtifactId)
    (hwfe : ∀ e ∈ s.parentArtifact, e.1 < s.nextArtifactId)
    (h : Artifact.create v fps atype none (some P) (some X) ce cv s =
      .ok (aid, s')) :
    Artifact.processing_parameters s' aid = .ok (some X) ∧
    Artifact.parents s' aid = P := by
  obtain ⟨haid, hnext, ⟨row, hart, hrow⟩, hedges⟩ :=
    create_ok_spec v fps atype none (some P) (some X) ce cv s aid s' h
  subst haid
  rcases hedges with ⟨htr, hpex, hpa⟩ | ⟨hfalse, _⟩
  · obtain ⟨X2, hX2, hcid, hpid⟩ := hrow htr
    have hXX : X2 = X := by
      injection hX2.symm
    subst hXX
    simp only [Option.getD_some] at hpex hpa
    have hlook : s'.lookupArtifact s.nextArtifactId = some row := by
      unfold Store.lookupArtifact
      rw [hart, List.find?_append]
      have h1 : s.artifacts.find?
          (fun r2 => r2.1 = s.nextArtifactId) = none := by
        rw [List.find?_eq_none]
        intro x hx
        simp only [decide_eq_true_eq]
        exact Nat.ne_of_lt (hwfa x hx)
      rw [h1]
      simp [List.find?]
    constructor
    · unfold Artifact.processing_parameters Artifact.checkExists
      rw [hlook]
      simp only [exceptBind_ok]
      rw [hcid, hpid]
      rfl
    · unfold Artifact.parents
      rw [hpa, List.filter_append]
      have h2 : s.parentArtifact.filter
          (fun e => e.1 = s.nextArtifactId) = [] := by
        rw [List.filter_eq_nil_iff]
        intro x hx
        simp only [decide_eq_true_eq]
        exact Nat.ne_of_lt (hwfe x hx)
      have h3 : (P.map (fun p => (s.nextArtifactId, p))).filter
          (fun e => e.1 = s.nextArtifactId) =
            P.map (fun p => (s.nextArtifactId, p)) := by
        rw [List.filter_eq_self]
        intro x hx
        simp only [List.mem_map] at hx
        obtain ⟨p, _, rfl⟩ := hx
        simp
      rw [h2, h3]
      simp [List.map_map, Function.comp_def]
  · have hP : P = [] := by
      simpa [pyTruthyList, List.isEmpty_iff] using hfalse
    subst hP
    cases fps with
    | nil => simp [Artifact.create] at h
    | cons f t => simp [Artifact.create, pyTruthyList, pyTruthyObj] at h

/-- The store obtained by creating artifact 3 from parents 1 and 2 in
`storeTwoRoots` with parameters (5, 7). -/
def storeAfterCreate : Store :=
  ⟨[(1, rootRec 1 1 false false false), (2, rootRec 1 1 false false false),
    (3, ⟨some 7, some 5, 1, 1, 2, false, false, false⟩)],
   [(3, 1), (3, 2)], [(1, 1), (1, 2), (1, 3)], [(3, 1)], [], [], [], [], 4, 2⟩

/-- Claim C4 witness: the concrete round-trip through `storeTwoRoots`. -/
theorem create_roundtrip_witness :
    Artifact.processing_parameters storeAfterCreate 3 = .ok (some ⟨5, 7⟩) ∧
    Artifact.parents storeAfterCreate 3 = [1, 2] :=
  create_roundtrip vocabFix [("fp", 1)] "BIOM" [1, 2] ⟨5, 7⟩ false false
    storeTwoRoots 3 storeAfterCreate (by decide) (by decide) rfl

/-- Well-formedness of the artifact store: every artifact id is below the
id counter, and every parent edge points from a strictly larger child id to
a strictly smaller parent id (children are created after their parents). -/
def Store.WF (s : Store) : Prop :=
  (∀ row ∈ s.artifacts, row.1 < s.nextArtifactId) ∧
  (∀ e ∈ s.parentArtifact, e.2 < e.1 ∧ e.1 < s.nextArtifactId)

/-- The states reachable by any sequence of create and delete operations
from a store holding no artifacts and no lineage edges (collaborator
tables such as prep templates may be present). -/
inductive Reachable : Store → Prop where
  | init (s : Store) (ha : s.artifacts = []) (he : s.parentArtifact = []) :
      Reachable s
  | create {v : Vocab} {fps : List (String × Nat)} {atype : String}
      {pt : Option Nat} {ps : Option (List Nat)} {pp : Option Parameters}
      {ce cv : Bool} {s : Store} {aid : Nat} {s' : Store} :
      Reachable s →
      Artifact.create v fps atype pt ps pp ce cv s = .ok (aid, s') →
      Reachable s'
  | delete {v : Vocab} {aid : Nat} {s s' : Store} :
      Reachable s → Artifact.delete v aid s = .ok s' → Reachable s'

/-- Helper: creation preserves well-formedness — the new row takes the
fresh id and the new edges run from the fresh child to already-existing
(hence smaller) parents. -/
theorem wf_create {v : Vocab} {fps : List (String × Nat)} {atype : String}
    {pt : Option Nat} {ps : Option (List Nat)} {pp : Option Parameters}
    {ce cv : Bool} {s : Store} {aid : Nat} {s' : Store}
    (h : Artifact.create v fps atype pt ps pp ce cv s = .ok (aid, s'))
    (hwf : s.WF) : s'.WF := by
  obtain ⟨haid, hnext, ⟨row, hart, _⟩, hedges⟩ :=
    create_ok_spec v fps atype pt ps pp ce cv s aid s' h
  subst haid
  constructor
  · intro r2 hr2
    rw [hart] at hr2
    rw [hnext]
    rcases List.mem_append.mp hr2 with hold | hnew
    · exact lt_trans (hwf.1 r2 hold) (Nat.lt_succ_self _)
    · simp only [List.mem_singleton] at hnew
      subst hnew
      exact Nat.lt_succ_self _
  · intro e he
    rw [hnext]
    rcases hedges with ⟨-, hpex, hpa⟩ | ⟨-, hpa⟩
    · rw [hpa] at he
      rcases List.mem_append.mp he with hold | hnew
      · exact ⟨(hwf.2 e hold).1, lt_trans (hwf.2 e hold).2 (Nat.lt_succ_self _)⟩
      · simp only [List.mem_map] at hnew
        obtain ⟨p, hp, rfl⟩ := hnew
        obtain ⟨r2, hr2⟩ := Option.isSome_iff_exists.mp (hpex p hp)
        have hmem := List.mem_of_find?_eq_some (lookup_find hr2)
        exact ⟨hwf.1 (p, r2) hmem, Nat.lt_succ_self _⟩
    · rw [hpa] at he
      exact ⟨(hwf.2 e he).1, lt_trans (hwf.2 e he).2 (Nat.lt_succ_self _)⟩

/-- Helper: deletion preserves well-formedness — it only removes rows. -/
theorem wf_delete {v : Vocab} {aid : Nat} {s s' : Store}
    (h : Artifact.delete v aid s = .ok s') (hwf : s.WF) : s'.WF := by
  obtain ⟨r, sid, -, -, hnext, -, hart, -, -, -, -, hcase⟩ :=
    delete_ok_spec v s aid s' h
  constructor
  · intro r2 hr2
    rw [hart] at hr2
    rw [hnext]
    exact hwf.1 r2 (List.mem_of_mem_filter hr2)
  · intro e he
    rw [hnext]
    rcases hcase with ⟨-, hpa, -, -⟩ | ⟨-, hpa, -, -⟩ <;> rw [hpa] at he
    · exact hwf.2 e he
    · exact hwf.2 e (List.mem_of_mem_filter he)

/-- Helper: every reachable store is well-formed. -/
theorem reachable_wf {s : Store} (h : Reachable s) : s.WF := by
  induction h with
  | init s ha he => exact ⟨by simp [ha], by simp [he]⟩
  | create _ hc ih => exact wf_create hc ih
  | delete _ hd ih => exact wf_delete hd ih

/-- Claim C3: in every reachable store the lineage graph is acyclic — no
artifact is reachable from itself by repeatedly following `children`.
This holds because create only inserts edges from already-existing parents
to the freshly inserted artifact, so every edge strictly increases the id. -/
theorem lineage_graph_acyclic (s : Store) (hs : Reachable s) (a : Nat) :
    ¬ Relation.TransGen (fun x y => y ∈ Artifact.children s x) a a := by
  have hwf := reachable_wf hs
  have hstep : ∀ x y, y ∈ Artifact.children s x → x < y := by
    intro x y hy
    unfold Artifact.children at hy
    simp only [List.mem_map] at hy
    obtain ⟨e, he, rfl⟩ := hy
    have hpred := List.of_mem_filter he
    have hmem := List.mem_of_mem_filter he
    have hlt := (hwf.2 e hmem).1
    simp only [decide_eq_true_eq] at hpred
    exact hpred ▸ hlt
  intro hcyc
  have hmono : ∀ x y,
      Relation.TransGen (fun x y => y ∈ Artifact.children s x) x y → x < y := by
    intro x y hxy
    induction hxy with
    | single h1 => exact hstep _ _ h1
    | tail _ h2 ih => exact lt_trans ih (hstep _ _ h2)
  exact lt_irrefl a (hmono a a hcyc)

/-- The store reached from `storeOneTemplate` by one template-derived
creation (artifact 1). -/
def storeReached1 : Store :=
  ⟨[(1, rootRec 1 1 false false false)],
   [], [(1, 1)], [(1, 1)], [], [(10, ⟨"16S", 1, some 1⟩)], [], [], 2, 2⟩

/-- Claim C3 witness: the store reached by one creation from a template
store has no children-cycle through artifact 1. -/
theorem lineage_graph_acyclic_witness :
    ¬ Relation.TransGen
      (fun x y => y ∈ Artifact.children storeReached1 x) 1 1 :=
  lineage_graph_acyclic storeReached1
    (@Reachable.create vocabFix [("fp", 1)] "FASTQ" (some 10) none none
      false false storeOneTemplate 1 storeReached1
      (Reachable.init storeOneTemplate rfl rfl) rfl) 1
